import Mathlib

/-!
Shallow embedding of the nano-envanter inventory application.

The definitions below are direct translations of the TypeScript source:
  * `src/models/Product.ts` — the transfer shape (`Product`), the storage
    shape (`ProductDocument`) and the two conversion helpers;
  * `src/app/api/products/route.ts` — the `POST` and `PUT` handlers over an
    in-memory model of the Mongo collection;
  * `src/app/page.tsx` — the coordinator (`addProduct`, `deleteProduct`);
  * `src/components/InventoryList.tsx` — status derivation, pagination,
    page navigation, the edit commit paths and the delete-confirmation gate;
  * `src/components/InventoryForm.tsx` — creation-form validation.

JavaScript `number` stock counts are modelled as `Int`; `Date` timestamps
as `Nat` (milliseconds); MongoDB `ObjectId` keys as `String`; absent
(`undefined`) fields as `Option`.
-/

namespace NanoEnvanter

/-- Derived stock status as rendered by `InventoryList.tsx` (lines 377–391):
`Stok Yok` (out of stock), `Düşük Stok` (low stock), `Stokta` (in stock). -/
inductive StockStatus where
  | outOfStock
  | lowStock
  | inStock
deriving DecidableEq, Repr

/-- Translation of the status derivation in `InventoryList.tsx`:
`product.count === 0 ? "Stok Yok" : product.count <= 5 ? "Düşük Stok" : "Stokta"`. -/
def stockStatus (count : Int) : StockStatus :=
  if count = 0 then .outOfStock
  else if count ≤ 5 then .lowStock
  else .inStock

/-- Transfer shape (`Product` in `src/models/Product.ts`). `createdAt` and
`updatedAt` are optional there (`createdAt?: Date`). -/
structure Product where
  id : String
  name : String
  code : String
  count : Int
  description : Option String
  createdAt : Option Nat
  updatedAt : Option Nat
deriving DecidableEq, Repr

/-- Storage shape (`ProductDocument` in `src/models/Product.ts`) with the
store-generated primary key `_id`. -/
structure ProductDocument where
  _id : String
  name : String
  code : String
  count : Int
  description : Option String
  createdAt : Nat
  updatedAt : Nat
deriving DecidableEq, Repr

/-- `Omit<ProductDocument, '_id'>`: what `productToDocument` returns. -/
structure ProductDocumentData where
  name : String
  code : String
  count : Int
  description : Option String
  createdAt : Nat
  updatedAt : Nat
deriving DecidableEq, Repr

/-- `Omit<Product, 'id'>`: the patch given to `productToDocument` /
submitted by the form and by the edit paths. -/
structure ProductPatch where
  name : String
  code : String
  count : Int
  description : Option String
  createdAt : Option Nat
  updatedAt : Option Nat
deriving DecidableEq, Repr

/-- `documentToProduct` from `src/models/Product.ts`: maps `_id` to `id`,
passes the rest through. -/
def documentToProduct (doc : ProductDocument) : Product :=
  { id := doc._id
    name := doc.name
    code := doc.code
    count := doc.count
    description := doc.description
    createdAt := some doc.createdAt
    updatedAt := some doc.updatedAt }

/-- `productToDocument` from `src/models/Product.ts`:
`createdAt: product.createdAt || new Date()` (a `Date` object is always
truthy, so `||` only replaces an absent value), `updatedAt: new Date()`.
`now` stands for `new Date()` at the moment of the call. -/
def productToDocument (product : ProductPatch) (now : Nat) : ProductDocumentData :=
  { name := product.name
    code := product.code
    count := product.count
    description := product.description
    createdAt := product.createdAt.getD now
    updatedAt := now }

/-! ### Server routes (`src/app/api/products/route.ts`) -/

/-- Request body of `POST /api/products`. Every field may be absent
(`undefined`) in JSON, hence the `Option`s. -/
structure PostBody where
  name : Option String
  code : Option String
  count : Option Int
  description : Option String
deriving DecidableEq, Repr

/-- Result of the `POST` handler: the `{success:false, error}` 400 response
or the `{success:true, data}` 200 response carrying the persisted document
(the handler re-reads the inserted document and returns
`documentToProduct` of it; we keep the document itself, which carries the
same information). -/
inductive PostResult where
  | badRequest (error : String)
  | created (doc : ProductDocument)
deriving DecidableEq, Repr

/-- JavaScript truthiness of an optional string: `!s` holds exactly for
`undefined`/`null` and for the empty string. -/
def falsyStr (s : Option String) : Bool :=
  s.getD "" = ""

/-- The `POST /api/products` handler over an in-memory collection.
Faithful points: the missing-field guard is
`!name || !code || count === undefined` — a `count` of `0` (falsy) still
passes, because the guard tests `=== undefined`, not truthiness; the
duplicate-code check `findOne({ code })` precedes `insertOne`.
`newId` stands for the ObjectId Mongo assigns, `now` for `new Date()`. -/
def post (store : List ProductDocument) (body : PostBody) (newId : String)
    (now : Nat) : PostResult × List ProductDocument :=
  if falsyStr body.name ∨ falsyStr body.code ∨ body.count = none then
    (.badRequest "Name, code, and count are required", store)
  else
    let code := body.code.getD ""
    if store.any (fun d => d.code = code) then
      (.badRequest "Product code already exists", store)
    else
      let data := productToDocument
        { name := body.name.getD "", code := code, count := body.count.getD 0,
          description := body.description, createdAt := none, updatedAt := none } now
      let doc : ProductDocument :=
        { _id := newId, name := data.name, code := data.code, count := data.count,
          description := data.description, createdAt := data.createdAt,
          updatedAt := data.updatedAt }
      (.created doc, store ++ [doc])

/-- Request body of `PUT /api/products/{id}`: the handler destructures only
`{ name, code, count, description }`, so any `createdAt`/`updatedAt` sent by
the client is dropped before `productToDocument` is called. -/
structure PutBody where
  name : String
  code : String
  count : Int
  description : Option String
deriving DecidableEq, Repr

/-- The update document built by the `PUT` handler:
`{ ...productToDocument({name, code, count, description}), updatedAt: new Date() }`.
The patch handed to `productToDocument` has no `createdAt`, so `createdAt`
defaults to `now`. -/
def putUpdateDoc (body : PutBody) (now : Nat) : ProductDocumentData :=
  let d := productToDocument
    { name := body.name, code := body.code, count := body.count,
      description := body.description, createdAt := none, updatedAt := none } now
  { d with updatedAt := now }

/-- Effect of `findOneAndUpdate({_id}, {$set: updateDoc})` on the addressed
document: every field of the update document is overwritten, `_id` is
untouched. -/
def applyPut (doc : ProductDocument) (body : PutBody) (now : Nat) : ProductDocument :=
  let u := putUpdateDoc body now
  { _id := doc._id, name := u.name, code := u.code, count := u.count,
    description := u.description, createdAt := u.createdAt, updatedAt := u.updatedAt }

/-! ### Coordinator (`src/app/page.tsx`) -/

/-- Coordinator state: the authoritative in-memory collection and the
dismissible error slot (`products` / `error` in `Home`). -/
structure CoordinatorState where
  products : List Product
  error : Option String
deriving DecidableEq, Repr

/-- Outcome of a remote `createProduct` call as seen by `addProduct`:
either the persisted `Product` or a thrown error message. -/
inductive CreateResult where
  | ok (p : Product)
  | err (msg : String)
deriving DecidableEq, Repr

/-- `addProduct` in `page.tsx`: on success
`setProducts(prev => [newProduct, ...prev])`; on failure `setError(...)`
and the collection is not touched. -/
def addProduct (s : CoordinatorState) (r : CreateResult) : CoordinatorState :=
  match r with
  | .ok p => { s with products := p :: s.products }
  | .err msg => { s with error := some msg }

/-- Outcome of a remote `deleteProduct` call. -/
inductive DeleteResult where
  | ok
  | err (msg : String)
deriving DecidableEq, Repr

/-- `deleteProduct` in `page.tsx`: on success
`setProducts(prev => prev.filter(product => product.id !== id))`; on failure
`setError(...)` with the collection untouched. -/
def deleteProduct (s : CoordinatorState) (id : String) (r : DeleteResult) :
    CoordinatorState :=
  match r with
  | .ok => { s with products := s.products.filter (fun p => p.id ≠ id) }
  | .err msg => { s with error := some msg }

/-! ### List presentation (`src/components/InventoryList.tsx`) -/

/-- Characters kept by JavaScript `String.prototype.trim`: it strips
whitespace from both ends. Executable model over the character list (Lean's
built-in `String.trim` is defined by well-founded recursion and does not
evaluate inside the kernel, so we use this equivalent definition). -/
def trimChars (s : List Char) : List Char :=
  (((s.dropWhile Char.isWhitespace).reverse).dropWhile Char.isWhitespace).reverse

/-- JavaScript `s.trim()`. -/
def jsTrim (s : String) : String :=
  String.mk (trimChars s.data)

/-- The `editFormData` state of the full-row edit. -/
structure EditFormData where
  name : String
  code : String
  count : Int
  description : String
deriving DecidableEq, Repr

/-- An `onUpdateProduct(id, patch)` call emitted by the list component. -/
structure UpdateCommand where
  id : String
  patch : PutBody
deriving DecidableEq, Repr

/-- `saveEdit` (full-row edit commit): submits only when
`name.trim() && code.trim() && count > 0`; otherwise nothing is emitted
(and the row stays in edit mode). `description.trim() || undefined` maps
an all-whitespace description to `undefined`. -/
def saveEdit (fd : EditFormData) (id : String) : Option UpdateCommand :=
  if jsTrim fd.name ≠ "" ∧ jsTrim fd.code ≠ "" ∧ fd.count > 0 then
    some { id := id,
           patch := { name := jsTrim fd.name, code := jsTrim fd.code, count := fd.count,
                      description :=
                        if jsTrim fd.description = "" then none
                        else some (jsTrim fd.description) } }
  else none

/-- `saveCountEdit` (inline count edit commit): submits only when
`tempCount > 0` and the product is found; with `tempCount <= 0` it merely
leaves edit mode without emitting an update. -/
def saveCountEdit (tempCount : Int) (products : List Product) (id : String) :
    Option UpdateCommand :=
  if tempCount > 0 then
    match products.find? (fun p => p.id = id) with
    | some product =>
        some { id := id,
               patch := { name := product.name, code := product.code,
                          count := tempCount, description := product.description } }
    | none => none
  else none

/-- Pagination: `totalPages = Math.ceil(sortedProducts.length / itemsPerPage)`.
For natural `n` and `k ≥ 1`, `Math.ceil(n / k) = (n + k - 1) / k` in
truncated division; `pagination_spec` below certifies that this is the
ceiling of `n / k`. -/
def totalPages (n k : Nat) : Nat :=
  (n + k - 1) / k

/-- `sortedProducts.slice(startIndex, endIndex)` with
`startIndex = (currentPage - 1) * itemsPerPage` and
`endIndex = startIndex + itemsPerPage`: JavaScript `slice(s, e)` on
`0 ≤ s ≤ e` keeps the elements at indices `[s, e)`. -/
def paginate (l : List Product) (currentPage k : Nat) : List Product :=
  (l.drop ((currentPage - 1) * k)).take k

/-- `handlePageChange`: `setCurrentPage(page)` with no clamping at all. -/
def handlePageChange (page : Int) : Int :=
  page

/-- The previous-page buttons: `setCurrentPage(prev => Math.max(prev - 1, 1))`. -/
def prevPage (currentPage : Int) : Int :=
  max (currentPage - 1) 1

/-- The next-page buttons:
`setCurrentPage(prev => Math.min(prev + 1, totalPages))`. -/
def nextPage (currentPage tp : Int) : Int :=
  min (currentPage + 1) tp

/-- `handleItemsPerPageChange`: stores the new page size and resets
`currentPage` to 1. -/
def handleItemsPerPageChange (newItemsPerPage : Nat) : Nat × Int :=
  (newItemsPerPage, 1)

/-- The numbered page buttons: the page for slot `i` (0-based,
`i < Math.min(totalPages, 7)`) computed in the render loop. -/
def pageButtonNumber (tp currentPage i : Int) : Int :=
  if tp ≤ 7 then i + 1
  else if currentPage ≤ 4 then i + 1
  else if currentPage ≥ tp - 3 then tp - 6 + i
  else currentPage - 3 + i

/-- `getTotalValue`: sum of `count` over the full (unpaginated) collection. -/
def getTotalValue (products : List Product) : Int :=
  products.foldl (fun total product => total + product.count) 0

/-- `getLowStockItems`: number of products with `count <= 5` in the full
collection. -/
def getLowStockItems (products : List Product) : Nat :=
  (products.filter (fun product => product.count ≤ 5)).length

/-! ### Delete confirmation gate
(`deleteConfirmModal` state in `InventoryList.tsx` + `ConfirmModal.tsx`) -/

/-- The `deleteConfirmModal` state. -/
structure DeleteModalState where
  isOpen : Bool
  productId : String
  productName : String
deriving DecidableEq, Repr

/-- The closed modal: `{isOpen: false, productId: '', productName: ''}`. -/
def closedModal : DeleteModalState :=
  { isOpen := false, productId := "", productName := "" }

/-- User events that drive the gate: clicking a row's delete button,
confirming in the modal, cancelling (cancel button, background click or
Escape — all call `onCancel`). -/
inductive GateEvent where
  | clickDelete (p : Product)
  | confirmDelete
  | cancelDelete
deriving DecidableEq, Repr

/-- One gate transition. `handleDeleteClick` opens the modal for the row's
product; `handleDeleteConfirm` calls `onDeleteProduct(productId)` and
closes; `handleDeleteCancel` closes without any call. `ConfirmModal`
renders nothing when `isOpen` is false, so its confirm button can only
fire while the modal is open — hence the `isOpen` guard on `confirmDelete`.
The second component is the remote `delete(id)` call emitted, if any. -/
def gateStep (m : DeleteModalState) (e : GateEvent) :
    DeleteModalState × Option String :=
  match e with
  | .clickDelete p =>
      ({ isOpen := true, productId := p.id, productName := p.name }, none)
  | .confirmDelete =>
      if m.isOpen then (closedModal, some m.productId) else (m, none)
  | .cancelDelete => (closedModal, none)

/-- Run the gate over a sequence of events, collecting every emitted remote
`delete(id)` call in order. -/
def runGate (m : DeleteModalState) : List GateEvent → DeleteModalState × List String
  | [] => (m, [])
  | e :: es =>
      let step := gateStep m e
      let rest := runGate step.1 es
      (rest.1, step.2.toList ++ rest.2)

/-! ### Creation form (`src/components/InventoryForm.tsx`) -/

/-- The creation form's `formData` state. -/
structure FormData where
  name : String
  code : String
  count : Int
  description : String
deriving DecidableEq, Repr

/-- `handleSubmit` validation: the `newErrors` record, as a list of
`(field, message)` pairs. -/
def validateForm (fd : FormData) : List (String × String) :=
  (if jsTrim fd.name = "" then [("name", "Ürün adı gereklidir")] else []) ++
  (if jsTrim fd.code = "" then [("code", "Ürün kodu gereklidir")] else []) ++
  (if fd.count ≤ 0 then [("count", "Adet 0\x27dan büyük olmalıdır")] else [])

/-- `handleSubmit`: submits `onAddProduct` only when `newErrors` is empty;
the submitted patch trims `name`/`code` and maps a blank description to
`undefined`. -/
def handleSubmit (fd : FormData) : Option ProductPatch :=
  if validateForm fd = [] then
    some { name := jsTrim fd.name, code := jsTrim fd.code, count := fd.count,
           description :=
             if jsTrim fd.description = "" then none else some (jsTrim fd.description),
           createdAt := none, updatedAt := none }
  else none

/-! ## Claims -/

/-- Claim C1: for every product (stock counts are non-negative integers in
the data model), the derived status is out-of-stock exactly when
`count = 0`, low-stock exactly when `0 < count ≤ 5`, and in-stock exactly
when `count > 5`, with the fixed threshold 5. -/
theorem stockStatus_spec (c : Int) (h : 0 ≤ c) :
    (stockStatus c = .outOfStock ↔ c = 0) ∧
    (stockStatus c = .lowStock ↔ 0 < c ∧ c ≤ 5) ∧
    (stockStatus c = .inStock ↔ 5 < c) := by
  unfold stockStatus
  split_ifs with h0 h5 <;> refine ⟨?_, ?_, ?_⟩ <;> simp <;> omega

/-- Witness for C1 at the concrete count 3. -/
theorem stockStatus_spec_witness :
    (stockStatus 3 = .outOfStock ↔ (3 : Int) = 0) ∧
    (stockStatus 3 = .lowStock ↔ (0 : Int) < 3 ∧ (3 : Int) ≤ 5) ∧
    (stockStatus 3 = .inStock ↔ (5 : Int) < 3) :=
  stockStatus_spec 3 (by decide)

/-- Claim C6: a successful create prepends the returned product to the front
of the collection (error slot untouched); a failed create sets the error
message and leaves the collection exactly unchanged. -/
theorem addProduct_sync_spec (s : CoordinatorState) (p : Product) (msg : String) :
    (addProduct s (.ok p)).products = p :: s.products ∧
    (addProduct s (.ok p)).error = s.error ∧
    (addProduct s (.err msg)).products = s.products ∧
    (addProduct s (.err msg)).error = some msg :=
  ⟨rfl, rfl, rfl, rfl⟩

/-- Claim C10: on every update, the update document handed to `$set` carries
`createdAt = now` (the `PUT` handler passes a patch without `createdAt` to
`productToDocument`, which defaults it to the current time), so the stored
record's `createdAt` is overwritten with the current time while `_id` stays
fixed and the mutable fields come from the patch. -/
theorem put_overwrites_createdAt (doc : ProductDocument) (body : PutBody) (now : Nat) :
    (putUpdateDoc body now).createdAt = now ∧
    applyPut doc body now =
      { _id := doc._id, name := body.name, code := body.code, count := body.count,
        description := body.description, createdAt := now, updatedAt := now } :=
  ⟨rfl, rfl⟩

/-- Counterexample to claim C4 as stated: applying the same patch twice is
not the same as applying it once "apart from `updatedAt` advancing" — the
`createdAt` field also advances, because every `PUT` overwrites it with the
current time. Concretely, after equalising `updatedAt`, the twice-updated
document still differs from the once-updated one (`createdAt` 1 vs 0). -/
theorem applyPut_twice_changes_createdAt :
    ¬ ({ applyPut
          (applyPut
            { _id := "a1", name := "Widget", code := "W-1", count := 10,
              description := none, createdAt := 0, updatedAt := 0 }
            { name := "Widget", code := "W-1", count := 7, description := none } 0)
          { name := "Widget", code := "W-1", count := 7, description := none } 1
        with updatedAt := 0 } =
      { applyPut
          { _id := "a1", name := "Widget", code := "W-1", count := 10,
            description := none, createdAt := 0, updatedAt := 0 }
          { name := "Widget", code := "W-1", count := 7, description := none } 0
        with updatedAt := 0 }) := by
  decide

/-- Claim C4 (amended): applying the same update patch twice yields the same
final stored product state as applying it once at the time of the second
application; apart from both `updatedAt` and `createdAt` advancing (both are
refreshed to the current time on every update), the two outcomes agree. -/
theorem applyPut_idempotent_modulo_timestamps (doc : ProductDocument)
    (body : PutBody) (t1 t2 : Nat) :
    applyPut (applyPut doc body t1) body t2 = applyPut doc body t2 ∧
    { applyPut (applyPut doc body t1) body t2 with createdAt := 0, updatedAt := 0 } =
      { applyPut doc body t1 with createdAt := 0, updatedAt := 0 } :=
  ⟨rfl, rfl⟩

/-- Claim C2's reachability assertion, formalised: some edit commit (full-row
`saveEdit` or inline `saveCountEdit`) submits an update whose count is 0. -/
def zeroCountEditSubmittable : Prop :=
  (∃ fd id u, saveEdit fd id = some u ∧ u.patch.count = 0) ∨
  (∃ t ps id u, saveCountEdit t ps id = some u ∧ u.patch.count = 0)

/-- Counterexample to claim C2: no edit interaction ever submits an update
with count 0 — `saveEdit` only submits under `count > 0`, and
`saveCountEdit` with `tempCount ≤ 0` exits edit mode without submitting. -/
theorem zeroCount_edit_not_submittable : ¬ zeroCountEditSubmittable := by
  rintro (⟨fd, id, u, hs, hc⟩ | ⟨t, ps, id, u, hs, hc⟩)
  · unfold saveEdit at hs
    split at hs
    · rename_i hcond
      cases hs
      simp at hc
      omega
    · exact Option.noConfusion hs
  · unfold saveCountEdit at hs
    split at hs
    · rename_i ht
      split at hs
      · cases hs
        simp at hc
        omega
      · exact Option.noConfusion hs
    · exact Option.noConfusion hs

/-- Claim C2 (amended): stock count 0 is not reachable through the UI at
all — the creation form requires `count > 0`, and both edit commit paths
(full-row edit and inline count edit) likewise submit only updates with a
positive count, doing nothing otherwise. -/
theorem commits_require_positive_count :
    (∀ fd id u, saveEdit fd id = some u → 0 < u.patch.count) ∧
    (∀ t ps id u, saveCountEdit t ps id = some u → 0 < u.patch.count) ∧
    (∀ fd p, handleSubmit fd = some p → 0 < p.count) := by
  refine ⟨?_, ?_, ?_⟩
  · intro fd id u hs
    unfold saveEdit at hs
    split at hs
    · rename_i hcond
      cases hs
      simpa using hcond.2.2
    · exact Option.noConfusion hs
  · intro t ps id u hs
    unfold saveCountEdit at hs
    split at hs
    · rename_i ht
      split at hs
      · cases hs
        simpa using ht
      · exact Option.noConfusion hs
    · exact Option.noConfusion hs
  · intro fd p hs
    unfold handleSubmit at hs
    split at hs
    · rename_i hval
      cases hs
      show 0 < fd.count
      by_contra hle
      have hmem : ("count", "Adet 0\x27dan büyük olmalıdır") ∈ validateForm fd := by
        simp only [validateForm]
        refine List.mem_append.mpr (Or.inr ?_)
        rw [if_pos (by omega)]
        exact List.mem_singleton.mpr rfl
      rw [hval] at hmem
      exact List.not_mem_nil _ hmem
    · exact Option.noConfusion hs

/-- Witness for the amended C2 at concrete inputs: each commit path, applied
to a concrete state, emits an update with positive count. -/
theorem commits_require_positive_count_witness :
    0 < ({ id := "x1",
           patch := { name := "A", code := "B", count := 3, description := none } } :
             UpdateCommand).patch.count ∧
    0 < ({ id := "p1",
           patch := { name := "Widget", code := "W-1", count := 2, description := none } } :
             UpdateCommand).patch.count ∧
    0 < ({ name := "Widget", code := "W-1", count := 4, description := none,
           createdAt := none, updatedAt := none } : ProductPatch).count :=
  ⟨commits_require_positive_count.1
      { name := "A", code := "B", count := 3, description := "" } "x1" _ (by decide),
   commits_require_positive_count.2.1 2
      [{ id := "p1", name := "Widget", code := "W-1", count := 9, description := none,
         createdAt := none, updatedAt := none }] "p1" _ (by decide),
   commits_require_positive_count.2.2
      { name := "Widget", code := "W-1", count := 4, description := "" } _ (by decide)⟩

/-- Counterexample to claim C3 as stated: `handlePageChange` is a
page-navigation operation that performs no clamping at all — called with
page 100 while `totalPages 5 10 = 1` (5 items, 10 per page), it sets
`currentPage` to 100, outside `[1, 1]`. -/
theorem handlePageChange_not_clamped :
    handlePageChange 100 = 100 ∧ ¬ handlePageChange 100 ≤ (totalPages 5 10 : Int) := by
  constructor
  · rfl
  · decide

/-- Claim C3 (amended): the page-navigation controls that are actually
rendered preserve `currentPage ∈ [1, totalPages]` — the previous/next
buttons clamp with `Math.max(..., 1)` / `Math.min(..., totalPages)`, the
numbered buttons only produce pages in range, and changing `itemsPerPage`
resets `currentPage` to 1; the unused `handlePageChange` helper, however,
performs no clamping (see the counterexample). -/
theorem navigation_clamping_spec (c tp : Int) (h1 : 1 ≤ c) (h2 : c ≤ tp) :
    (1 ≤ prevPage c ∧ prevPage c ≤ tp) ∧
    (1 ≤ nextPage c tp ∧ nextPage c tp ≤ tp) ∧
    (∀ k, (handleItemsPerPageChange k).2 = 1) ∧
    (∀ i, 0 ≤ i → i < min tp 7 →
      1 ≤ pageButtonNumber tp c i ∧ pageButtonNumber tp c i ≤ tp) := by
  refine ⟨?_, ?_, fun k => rfl, ?_⟩
  · unfold prevPage
    omega
  · unfold nextPage
    omega
  · intro i hi0 hi7
    unfold pageButtonNumber
    split_ifs <;> omega

/-- Witness for the amended C3 at `currentPage = 2`, `totalPages = 3`. -/
theorem navigation_clamping_spec_witness :
    (1 ≤ prevPage 2 ∧ prevPage 2 ≤ 3) ∧
    (1 ≤ nextPage 2 3 ∧ nextPage 2 3 ≤ 3) ∧
    (handleItemsPerPageChange 25).2 = 1 ∧
    (1 ≤ pageButtonNumber 3 2 1 ∧ pageButtonNumber 3 2 1 ≤ 3) := by
  have h := navigation_clamping_spec 2 3 (by decide) (by decide)
  exact ⟨h.1, h.2.1, h.2.2.1 25, h.2.2.2 1 (by decide) (by decide)⟩

/-- Claim C5: a create request whose `code` matches an already-stored
product (fields otherwise present) is answered with the 400 conflict
response `Product code already exists` and nothing is inserted; and a
failed create leaves the coordinator's collection unchanged. -/
theorem duplicate_code_rejected (store : List ProductDocument) (body : PostBody)
    (newId : String) (now : Nat)
    (hname : falsyStr body.name = false) (hcode : falsyStr body.code = false)
    (hcount : body.count ≠ none)
    (hdup : ∃ d ∈ store, d.code = body.code.getD "") :
    post store body newId now = (.badRequest "Product code already exists", store) ∧
    ∀ s msg, (addProduct s (.err msg)).products = s.products := by
  refine ⟨?_, fun s msg => rfl⟩
  unfold post
  rw [if_neg, if_pos]
  · obtain ⟨d, hd, hdc⟩ := hdup
    exact List.any_eq_true.mpr ⟨d, hd, by simp [hdc]⟩
  · simp [hname, hcode, hcount]

/-- Witness for C5: the two-product scenario — the store holds `W-1`, a
second create with code `W-1` fails with the conflict message, the store
stays as it was, and the coordinator's one-product collection keeps size 1. -/
theorem duplicate_code_rejected_witness :
    post
        [{ _id := "id1", name := "Widget", code := "W-1", count := 10,
           description := none, createdAt := 0, updatedAt := 0 }]
        { name := some "Gadget", code := some "W-1", count := some 5,
          description := none } "id2" 1
      = (.badRequest "Product code already exists",
         [{ _id := "id1", name := "Widget", code := "W-1", count := 10,
            description := none, createdAt := 0, updatedAt := 0 }]) ∧
    (addProduct
        { products := [{ id := "id1", name := "Widget", code := "W-1", count := 10,
                         description := none, createdAt := some 0, updatedAt := some 0 }],
          error := none }
        (.err "Product code already exists")).products.length = 1 := by
  have h := duplicate_code_rejected
    [{ _id := "id1", name := "Widget", code := "W-1", count := 10,
       description := none, createdAt := 0, updatedAt := 0 }]
    { name := some "Gadget", code := some "W-1", count := some 5, description := none }
    "id2" 1 (by decide) (by decide) (by decide)
    ⟨{ _id := "id1", name := "Widget", code := "W-1", count := 10,
       description := none, createdAt := 0, updatedAt := 0 }, by decide, rfl⟩
  refine ⟨h.1, ?_⟩
  rw [h.2]
  rfl

/-- Counterexample to claim C7: a `POST` whose `count` is 0 (name and code
present, code fresh) is *not* rejected — the handler's guard tests
`count === undefined`, so `count: 0` passes validation and a record with
count 0 is inserted. -/
theorem post_accepts_zero_count :
    post []
        { name := some "Widget", code := some "W-1", count := some 0,
          description := none } "id1" 0
      = (.created { _id := "id1", name := "Widget", code := "W-1", count := 0,
                    description := none, createdAt := 0, updatedAt := 0 },
         [{ _id := "id1", name := "Widget", code := "W-1", count := 0,
            description := none, createdAt := 0, updatedAt := 0 }]) := by
  decide

/-- The document the `POST` handler inserts once validation passes
(`productToDocument` of the request fields, keyed by the new ObjectId). -/
def insertedDoc (body : PostBody) (newId : String) (now : Nat) : ProductDocument :=
  { _id := newId, name := body.name.getD "", code := body.code.getD "",
    count := body.count.getD 0, description := body.description,
    createdAt := now, updatedAt := now }

/-- Claim C7 (amended): the non-positive-count rejection happens only
client-side — the creation form refuses `count ≤ 0` with the specific
message and submits nothing, while the `POST` route itself checks only for
missing `name`/`code`/`count` and duplicate codes, and inserts a record
even when `count` is 0 or negative. -/
theorem count_validation_client_side :
    (∀ fd : FormData, fd.count ≤ 0 →
      handleSubmit fd = none ∧
      ("count", "Adet 0\x27dan büyük olmalıdır") ∈ validateForm fd) ∧
    (∀ store body newId now,
      falsyStr body.name = false → falsyStr body.code = false →
      body.count ≠ none →
      store.any (fun d => d.code = body.code.getD "") = false →
      post store body newId now
        = (.created (insertedDoc body newId now),
           store ++ [insertedDoc body newId now])) := by
  constructor
  · intro fd hle
    have hmem : ("count", "Adet 0\x27dan büyük olmalıdır") ∈ validateForm fd := by
      simp only [validateForm]
      refine List.mem_append.mpr (Or.inr ?_)
      rw [if_pos hle]
      exact List.mem_singleton.mpr rfl
    refine ⟨?_, hmem⟩
    unfold handleSubmit
    rw [if_neg]
    intro hempty
    rw [hempty] at hmem
    exact List.not_mem_nil _ hmem
  · intro store body newId now hname hcode hcount hdup
    unfold post
    rw [if_neg (by simp [hname, hcode, hcount]), if_neg (by simp [hdup])]
    rfl

/-- Witness for the amended C7: the form with count 0 submits nothing and
records the count error; a `POST` with count −2 and a fresh code is
accepted and inserted. -/
theorem count_validation_client_side_witness :
    handleSubmit { name := "Widget", code := "W-1", count := 0, description := "" }
        = none ∧
    ("count", "Adet 0\x27dan büyük olmalıdır") ∈
      validateForm { name := "Widget", code := "W-1", count := 0, description := "" } ∧
    post []
        { name := some "Widget", code := some "W-1", count := some (-2),
          description := none } "id9" 3
      = (.created (insertedDoc
            { name := some "Widget", code := some "W-1", count := some (-2),
              description := none } "id9" 3),
         [] ++ [insertedDoc
            { name := some "Widget", code := some "W-1", count := some (-2),
              description := none } "id9" 3]) := by
  have h1 := count_validation_client_side.1
    { name := "Widget", code := "W-1", count := 0, description := "" } (by decide)
  have h2 := count_validation_client_side.2 []
    { name := some "Widget", code := some "W-1", count := some (-2),
      description := none } "id9" 3 (by decide) (by decide) (by decide) (by decide)
  exact ⟨h1.1, h1.2, h2⟩

/-- Claim C9: the remote `delete(id)` is emitted only by a confirm event on
an open gate carrying that `id` (the gate was opened by clicking delete on
that product); cancelling emits nothing and closes the gate; a trace with
no confirm event emits no remote call at all; and a confirmed successful
delete removes exactly the entries with that `id` from the collection,
while a failed delete leaves it unchanged. -/
theorem delete_gate_spec :
    (∀ m e, (gateStep m e).2 ≠ none →
      e = GateEvent.confirmDelete ∧ m.isOpen = true ∧
        (gateStep m e).2 = some m.productId) ∧
    (∀ m p, gateStep m (.clickDelete p)
        = ({ isOpen := true, productId := p.id, productName := p.name }, none)) ∧
    (∀ m, gateStep m .cancelDelete = (closedModal, none)) ∧
    (∀ m es, (∀ e ∈ es, e ≠ GateEvent.confirmDelete) → (runGate m es).2 = []) ∧
    (∀ s id, (deleteProduct s id .ok).products
          = s.products.filter (fun p => p.id ≠ id) ∧
      (∀ q, q ∈ (deleteProduct s id .ok).products ↔ q ∈ s.products ∧ q.id ≠ id)) ∧
    (∀ s id msg, (deleteProduct s id (.err msg)).products = s.products) := by
  refine ⟨?_, fun m p => rfl, fun m => rfl, ?_, ?_, fun s id msg => rfl⟩
  · intro m e h
    cases e with
    | clickDelete p => exact absurd rfl h
    | confirmDelete =>
        by_cases hop : m.isOpen
        · exact ⟨rfl, hop, by simp [gateStep, hop]⟩
        · exact absurd (by simp [gateStep, hop]) h
    | cancelDelete => exact absurd rfl h
  · intro m es
    induction es generalizing m with
    | nil => intro _; rfl
    | cons e es ih =>
        intro hne
        have he := hne e (List.mem_cons_self e es)
        have h2 : (gateStep m e).2 = none := by
          cases e with
          | clickDelete p => rfl
          | confirmDelete => exact absurd rfl he
          | cancelDelete => rfl
        simp only [runGate, h2, Option.toList_none, List.nil_append]
        exact ih _ (fun x hx => hne x (List.mem_cons_of_mem e hx))
  · intro s id
    refine ⟨rfl, ?_⟩
    intro q
    simp [deleteProduct, List.mem_filter]

/-- Witness for C9: a confirm on an open gate for `id1` emits the delete of
`id1`; a click-then-cancel trace emits nothing; a successful delete of
`id1` empties the one-product collection. -/
theorem delete_gate_spec_witness :
    (gateStep { isOpen := true, productId := "id1", productName := "Widget" }
        GateEvent.confirmDelete).2 = some "id1" ∧
    (runGate closedModal
        [GateEvent.clickDelete
            { id := "id1", name := "Widget", code := "W-1", count := 10,
              description := none, createdAt := none, updatedAt := none },
         GateEvent.cancelDelete]).2 = [] ∧
    (deleteProduct
        { products := [{ id := "id1", name := "Widget", code := "W-1", count := 10,
                         description := none, createdAt := none, updatedAt := none }],
          error := none } "id1" .ok).products = [] := by
  refine ⟨(delete_gate_spec.1 _ GateEvent.confirmDelete (by decide)).2.2, ?_, ?_⟩
  · exact delete_gate_spec.2.2.2.1 closedModal _ (by decide)
  · rw [(delete_gate_spec.2.2.2.2.1
      { products := [{ id := "id1", name := "Widget", code := "W-1", count := 10,
                       description := none, createdAt := none, updatedAt := none }],
        error := none } "id1").1]
    decide

/-- Claim C8: for `k ≥ 1` and 1-indexed page `p`, the displayed page is the
slice `[(p−1)·k, p·k)` of the sorted sequence (element `i` of the page is
element `(p−1)·k + i` of the sequence, and only indices `< k` appear);
`totalPages` is the ceiling of `N / k` (characterised by its Galois
property `totalPages ≤ m ↔ N ≤ m·k`); page 1 shows the first `k` items;
and the last page shows exactly the remainder, at most `k` items. -/
theorem pagination_spec (l : List Product) (p k : Nat) (hk : 1 ≤ k) (_hp : 1 ≤ p) :
    (∀ i : Nat, (paginate l p k)[i]? = if i < k then l[(p - 1) * k + i]? else none) ∧
    (∀ m : Nat, totalPages l.length k ≤ m ↔ l.length ≤ m * k) ∧
    paginate l 1 k = l.take k ∧
    (1 ≤ l.length →
      1 ≤ totalPages l.length k ∧
      (paginate l (totalPages l.length k) k).length
        = l.length - (totalPages l.length k - 1) * k ∧
      (paginate l (totalPages l.length k) k).length ≤ k) := by
  have hceil : ∀ m : Nat, totalPages l.length k ≤ m ↔ l.length ≤ m * k := by
    intro m
    unfold totalPages
    rw [Nat.div_le_iff_le_mul_add_pred hk, Nat.mul_comm k m]
    omega
  refine ⟨?_, hceil, ?_, ?_⟩
  · intro i
    unfold paginate
    rw [List.getElem?_take, List.getElem?_drop]
  · simp [paginate]
  · intro hn
    have htp1 : 1 ≤ totalPages l.length k := by
      have h0 := hceil 0
      rw [Nat.zero_mul] at h0
      omega
    have h1 : l.length ≤ totalPages l.length k * k := (hceil _).1 (Nat.le_refl _)
    have h2 : ¬ l.length ≤ (totalPages l.length k - 1) * k := by
      intro hc
      have := (hceil _).2 hc
      omega
    have hsplit : (totalPages l.length k - 1) * k + k = totalPages l.length k * k := by
      rw [← Nat.succ_mul]
      congr 1
      omega
    refine ⟨htp1, ?_, ?_⟩ <;>
      · unfold paginate
        rw [List.length_take, List.length_drop]
        omega

/-- Witness for C8 on a concrete 3-product collection with page size 2:
page 2's first element is the collection's third, `totalPages 3 2 = 2`
satisfies the ceiling property at `m = 2`, page 1 is the first two items,
and the last page holds the single remaining item. -/
theorem pagination_spec_witness :
    (paginate
        [{ id := "a", name := "Alpha", code := "A-1", count := 7, description := none,
           createdAt := none, updatedAt := none },
         { id := "b", name := "Beta", code := "B-1", count := 3, description := none,
           createdAt := none, updatedAt := none },
         { id := "c", name := "Gamma", code := "C-1", count := 0, description := none,
           createdAt := none, updatedAt := none }] 2 2)[0]?
      = some { id := "c", name := "Gamma", code := "C-1", count := 0,
               description := none, createdAt := none, updatedAt := none } ∧
    (totalPages 3 2 ≤ 2 ↔ 3 ≤ 2 * 2) ∧
    (paginate
        [{ id := "a", name := "Alpha", code := "A-1", count := 7, description := none,
           createdAt := none, updatedAt := none },
         { id := "b", name := "Beta", code := "B-1", count := 3, description := none,
           createdAt := none, updatedAt := none },
         { id := "c", name := "Gamma", code := "C-1", count := 0, description := none,
           createdAt := none, updatedAt := none }] (totalPages 3 2) 2).length
      = 3 - (totalPages 3 2 - 1) * 2 := by
  have h := pagination_spec
    [{ id := "a", name := "Alpha", code := "A-1", count := 7, description := none,
       createdAt := none, updatedAt := none },
     { id := "b", name := "Beta", code := "B-1", count := 3, description := none,
       createdAt := none, updatedAt := none },
     { id := "c", name := "Gamma", code := "C-1", count := 0, description := none,
       createdAt := none, updatedAt := none }] 2 2 (by decide) (by decide)
  refine ⟨?_, h.2.1 2, (h.2.2.2 (by decide)).2.1⟩
  simpa using h.1 0

end NanoEnvanter
